import Mathlib

/-
Verification of the Oxide Ansible collection (jforce/oxide.computer):
name validation, payload building, and API-response classification of the
resource modules, shallowly embedded from the Python sources.
-/

namespace Oxide

/-- JSON-like values exchanged with the control plane, as produced by
`response.json()` and the payload dict literals in the modules. -/
inductive JValue where
  | null : JValue
  | bool : Bool → JValue
  | nat  : Nat → JValue
  | str  : String → JValue
  | list : List JValue → JValue
  | obj  : List (String × JValue) → JValue

/-- Dictionary lookup on a JSON object body, modelling Python's
`key in d` / `d[key]` on the dicts the modules build and receive. -/
def jget (o : List (String × JValue)) (k : String) : Option JValue :=
  match o with
  | [] => none
  | (k2, v) :: rest => if k2 == k then some v else jget rest k

/- ------------------------------------------------------------------ -/
/- Name validation (plugins/module_utils/oxide_utils.py lines 4-22,
   and the shorter copy in library/oxide_disk.py lines 180-186). -/

/-- The character class `[a-z0-9]` of the first regex atom. -/
def isLowerDigit (c : Char) : Bool :=
  ('a' ≤ c && c ≤ 'z') || ('0' ≤ c && c ≤ '9')

/-- The character class `[a-z0-9-]` of the second regex atom. -/
def isPatternTail (c : Char) : Bool :=
  isLowerDigit c || c == '-'

/-- Membership in the regular language `[a-z0-9][a-z0-9-]*` over the whole
character list (what the regex accepts when anchored at both ends of the
string proper). -/
def matchCore : List Char → Bool
  | [] => false
  | c :: cs => isLowerDigit c && cs.all isPatternTail

/-- Python's `re.match` on the pattern `^[a-z0-9][a-z0-9-]*$`: in Python the
anchor `$` matches at the end of the string, and also just before a single
newline that ends the string, so a name built from the core language plus
one trailing newline character is accepted as well. -/
def pyMatchName (s : List Char) : Bool :=
  matchCore s ||
    (match s.getLast? with
     | some c => c == '\n' && matchCore s.dropLast
     | none => false)

/-- Message of the maximum-length failure, verbatim from the source. -/
def msgTooLong : String := "Name exceeds the maximum length of 63 characters"

/-- Message of the minimum-length failure, verbatim from the source. -/
def msgTooShort : String := "Name does not meet the minimum length of 1 character"

/-- First sentence of the pattern-failure message (the source continues with
prose restating the documented rules; the tail is elided here). -/
def msgPattern : String := "Name does not match the required pattern"

/-- `validate_name` of plugins/module_utils/oxide_utils.py: max length 63,
min length 1, then the regex; returns (is_valid, error_message). -/
def validate_name (name : String) : Bool × String :=
  if name.length > 63 then (false, msgTooLong)
  else if name.length < 1 then (false, msgTooShort)
  else if !(pyMatchName name.data) then (false, msgPattern)
  else (true, "")

/-- `validate_name` of library/oxide_disk.py (also library/oxide_instance.py):
the same checks minus the explicit minimum-length test. -/
def validate_name_disk (name : String) : Bool × String :=
  if name.length > 63 then (false, msgTooLong)
  else if !(pyMatchName name.data) then (false, msgPattern)
  else (true, "")

/-- The lowercase hexadecimal digits `[0-9a-f]`. -/
def isHexLower (c : Char) : Bool :=
  ('0' ≤ c && c ≤ '9') || ('a' ≤ c && c ≤ 'f')

/-- Syntactic shape of a lowercase UUID: 36 characters in five groups of
8, 4, 4, 4 and 12 lowercase hex digits separated by hyphens at positions
8, 13, 18 and 23. -/
def isUUIDShape (s : String) : Bool :=
  let cs := s.data
  cs.length == 36 &&
    (List.range 36).all (fun i =>
      if i == 8 || i == 13 || i == 18 || i == 23 then
        cs.getD i ' ' == '-'
      else isHexLower (cs.getD i ' '))

/- ------------------------------------------------------------------ -/
/- Disk payload building (library/oxide_disk.py lines 188-208). -/

/-- The `data` dict that `main` of library/oxide_disk.py passes to
`create_disk`: name, description, size and the user-supplied `disk_source`
mapping (kept as a raw mapping, since `create_disk` reads it by key). -/
structure DiskParams where
  name : String
  description : String
  size : Nat
  disk_source : List (String × JValue)

/-- The `disk_source` sub-object that `create_disk` builds: it starts from
`{type: data[disk_source][type]}` and then adds exactly one variant field —
`block_size` for `blank` and `importing_blocks`, `snapshot_id` for
`snapshot`, `image_id` for `image`; an unrecognized tag adds nothing.
`none` models the KeyError Python raises when a read key is absent. -/
def build_disk_source (ds : List (String × JValue)) : Option (List (String × JValue)) :=
  match jget ds "type" with
  | none => none
  | some t =>
    match t with
    | JValue.str tag =>
      if tag == "blank" || tag == "importing_blocks" then
        match jget ds "block_size" with
        | some b => some [("type", JValue.str tag), ("block_size", b)]
        | none => none
      else if tag == "snapshot" then
        match jget ds "snapshot_id" with
        | some s => some [("type", JValue.str tag), ("snapshot_id", s)]
        | none => none
      else if tag == "image" then
        match jget ds "image_id" with
        | some i => some [("type", JValue.str tag), ("image_id", i)]
        | none => none
      else some [("type", JValue.str tag)]
    | other => some [("type", other)]

/-- The JSON payload of `create_disk`: description, the built disk_source,
name, and `size` converted from gigabytes to bytes by the source expression
`data[size] * 1024 * 1024 * 1024`. -/
def create_disk_payload (d : DiskParams) : Option (List (String × JValue)) :=
  (build_disk_source d.disk_source).map (fun ds =>
    [("description", JValue.str d.description),
     ("disk_source", JValue.obj ds),
     ("name", JValue.str d.name),
     ("size", JValue.nat (d.size * 1024 * 1024 * 1024))])

/- ------------------------------------------------------------------ -/
/- Instance payload building (plugins/modules/oxide_instance.py lines
   187-223 and plugins/module_utils/oxide_utils.py lines 24-61). -/

/-- One entry of the `disks.create` list of the oxide_instance module:
description, the user-supplied `disk_source` mapping, name and size. -/
structure CreateEntry where
  description : String
  disk_source : List (String × JValue)
  name : String
  size : Nat

/-- The optional `disks` option of the oxide_instance module: a mapping
with a `create` list and an `attach` list, either of which may be missing
or None (both modelled as `none`). -/
structure DisksInput where
  create : Option (List CreateEntry)
  attach : Option (List String)

/-- A `create`-tagged entry of the wire `disks` list
(plugins/modules/oxide_instance.py lines 201-207): the `disk_source`
mapping is copied verbatim and `size` is converted GB to bytes. -/
def instance_disk_create_entry (e : CreateEntry) : JValue :=
  JValue.obj
    [("description", JValue.str e.description),
     ("disk_source", JValue.obj e.disk_source),
     ("name", JValue.str e.name),
     ("size", JValue.nat (e.size * 1024 * 1024 * 1024)),
     ("type", JValue.str "create")]

/-- An `attach`-tagged entry of the wire `disks` list
(plugins/modules/oxide_instance.py lines 210-213). -/
def instance_disk_attach_entry (id : String) : JValue :=
  JValue.obj [("id", JValue.str id), ("type", JValue.str "attach")]

/-- The wire `disks` list: every `create` entry, then every `attach` entry
(the source guards each loop on the sub-list being non-empty, which is
equivalent to looping over the possibly empty list). -/
def instance_disks_list (d : DisksInput) : List JValue :=
  (d.create.getD []).map instance_disk_create_entry ++
    (d.attach.getD []).map instance_disk_attach_entry

/-- The `data` dict `main` of plugins/modules/oxide_instance.py passes to
`create_instance`. `disks = none` models the parameter being unset (None,
falsy); `ssh_public_keys = []` and `user_data = empty` cover both an unset
and an empty value, which Python treats alike (both falsy). -/
structure InstanceParams where
  name : String
  description : String
  hostname : String
  memory : Nat
  ncpus : Nat
  start_on_create : Bool
  disks : Option DisksInput
  ssh_public_keys : List String
  user_data : String

/-- The JSON payload of `create_instance` in
plugins/modules/oxide_instance.py: the six always-present fields with
`memory` converted GB to bytes, then — only under the source's truthiness
guards — `disks` (added whenever the `disks` mapping itself is truthy,
even if the built list is empty), `ssh_public_keys` and `user_data`. -/
def create_instance_payload (i : InstanceParams) : List (String × JValue) :=
  [("name", JValue.str i.name),
   ("description", JValue.str i.description),
   ("hostname", JValue.str i.hostname),
   ("memory", JValue.nat (i.memory * 1024 * 1024 * 1024)),
   ("ncpus", JValue.nat i.ncpus),
   ("start_on_create", JValue.bool i.start_on_create)]
  ++ (match i.disks with
      | none => []
      | some d => [("disks", JValue.list (instance_disks_list d))])
  ++ (if i.ssh_public_keys.isEmpty then []
      else [("ssh_public_keys", JValue.list (i.ssh_public_keys.map JValue.str))])
  ++ (if i.user_data == "" then []
      else [("user_data", JValue.str i.user_data)])

/-- One element of the flat `disks` list consumed by `create_instance` of
plugins/module_utils/oxide_utils.py: a dict whose `type` key is `create`
or `attach` (entries with any other tag are skipped by the source and are
not modelled). -/
inductive UDisk where
  | create : String → List (String × JValue) → String → Nat → UDisk
  | attach : String → UDisk

/-- The wire entry oxide_utils.create_instance builds for one disk
(lines 37-49): a `create` entry keeps `size` exactly as supplied (no unit
conversion) and copies `disk_source` verbatim; an `attach` entry carries
the disk's `name`, not an id. -/
def utils_disk_entry : UDisk → JValue
  | UDisk.create description ds name size =>
      JValue.obj
        [("description", JValue.str description),
         ("disk_source", JValue.obj ds),
         ("name", JValue.str name),
         ("size", JValue.nat size),
         ("type", JValue.str "create")]
  | UDisk.attach name =>
      JValue.obj [("name", JValue.str name), ("type", JValue.str "attach")]

/-- The `data` dict consumed by oxide_utils.create_instance; `disks = []`
covers both a missing and an empty (falsy) disks list. -/
structure UtilsInstanceParams where
  name : String
  description : String
  hostname : String
  memory : Nat
  ncpus : Nat
  start_on_create : Bool
  disks : List UDisk
  ssh_public_keys : List String
  user_data : String

/-- The JSON payload of oxide_utils.create_instance (lines 25-58):
`memory` is converted GB to bytes; the `disks` key is added only when the
built list is non-empty (`if disks_payload:`); empty `ssh_public_keys`
and `user_data` are omitted. -/
def utils_create_instance_payload (u : UtilsInstanceParams) : List (String × JValue) :=
  [("name", JValue.str u.name),
   ("description", JValue.str u.description),
   ("hostname", JValue.str u.hostname),
   ("memory", JValue.nat (u.memory * 1024 * 1024 * 1024)),
   ("ncpus", JValue.nat u.ncpus),
   ("start_on_create", JValue.bool u.start_on_create)]
  ++ (if (u.disks.map utils_disk_entry).isEmpty then []
      else [("disks", JValue.list (u.disks.map utils_disk_entry))])
  ++ (if u.ssh_public_keys.isEmpty then []
      else [("ssh_public_keys", JValue.list (u.ssh_public_keys.map JValue.str))])
  ++ (if u.user_data == "" then []
      else [("user_data", JValue.str u.user_data)])

/- ------------------------------------------------------------------ -/
/- Outcome classification: how each module's `main` turns the
   (status code, decoded body) of the API call into the module result. -/

/-- The terminal call a module makes for one reconciliation:
`exitJson changed fields` for `module.exit_json(changed=..., **fields)`,
`failJson fields` for `module.fail_json(**fields)`, and `nameError` for a
Python NameError raised while evaluating the arguments (reaching a branch
that reads an undefined variable). -/
inductive Outcome where
  | exitJson : Bool → List (String × JValue) → Outcome
  | failJson : List (String × JValue) → Outcome
  | nameError : Outcome

/-- Python's `'error_code' in body and body['error_code'] == code`: true
exactly when the key is present with the given string value. -/
def hasErrorCode (body : List (String × JValue)) (code : String) : Bool :=
  match jget body "error_code" with
  | some (JValue.str s) => s == code
  | _ => false

/-- Create classification of oxide_project.py lines 137-145. -/
def oxide_project_create_result (status : Nat) (body : List (String × JValue)) : Outcome :=
  if status == 201 then
    Outcome.exitJson true [("project", JValue.obj body), ("msg", JValue.str "Project created")]
  else if status == 400 then
    if hasErrorCode body "ObjectAlreadyExists" then
      Outcome.exitJson false [("msg", JValue.str "Project already present")]
    else
      Outcome.failJson [("msg", JValue.str "Failed to create project"), ("response", JValue.obj body)]
  else
    Outcome.failJson [("msg", JValue.str "Failed to create project"), ("response", JValue.obj body)]

/-- Delete classification of oxide_project.py lines 150-158. -/
def oxide_project_delete_result (status : Nat) (body : List (String × JValue)) : Outcome :=
  if status == 204 then
    Outcome.exitJson true [("msg", JValue.str "Project deleted")]
  else if status == 404 then
    if hasErrorCode body "ObjectNotFound" then
      Outcome.exitJson false [("msg", JValue.str "Project not present")]
    else
      Outcome.failJson [("msg", JValue.str "Failed to delete project"), ("response", JValue.obj body)]
  else
    Outcome.failJson [("msg", JValue.str "Failed to delete project"), ("response", JValue.obj body)]

/-- Create classification of plugins/modules/oxide_instance.py lines 307-315. -/
def oxide_instance_create_result (status : Nat) (body : List (String × JValue)) : Outcome :=
  if status == 201 then
    Outcome.exitJson true [("instance", JValue.obj body), ("msg", JValue.str "Instance created")]
  else if status == 400 then
    if hasErrorCode body "ObjectAlreadyExists" then
      Outcome.exitJson false [("msg", JValue.str "Instance already present")]
    else
      Outcome.failJson [("msg", JValue.str "Failed to create instance"), ("response", JValue.obj body)]
  else
    Outcome.failJson [("msg", JValue.str "Failed to create instance"), ("response", JValue.obj body)]

/-- Delete classification of plugins/modules/oxide_instance.py lines 320-328. -/
def oxide_instance_delete_result (status : Nat) (body : List (String × JValue)) : Outcome :=
  if status == 204 then
    Outcome.exitJson true [("msg", JValue.str "Instance deleted")]
  else if status == 404 then
    if hasErrorCode body "ObjectNotFound" then
      Outcome.exitJson false [("msg", JValue.str "Instance not present")]
    else
      Outcome.failJson [("msg", JValue.str "Failed to delete instance"), ("response", JValue.obj body)]
  else
    Outcome.failJson [("msg", JValue.str "Failed to delete instance"), ("response", JValue.obj body)]

/-- Create classification of library/oxide_instance.py lines 251-259
(same shape and messages as the plug-in module). -/
def oxide_instance_lib_create_result (status : Nat) (body : List (String × JValue)) : Outcome :=
  if status == 201 then
    Outcome.exitJson true [("instance", JValue.obj body), ("msg", JValue.str "Instance created")]
  else if status == 400 then
    if hasErrorCode body "ObjectAlreadyExists" then
      Outcome.exitJson false [("msg", JValue.str "Instance already present")]
    else
      Outcome.failJson [("msg", JValue.str "Failed to create instance"), ("response", JValue.obj body)]
  else
    Outcome.failJson [("msg", JValue.str "Failed to create instance"), ("response", JValue.obj body)]

/-- Delete classification of library/oxide_instance.py lines 264-272. -/
def oxide_instance_lib_delete_result (status : Nat) (body : List (String × JValue)) : Outcome :=
  if status == 204 then
    Outcome.exitJson true [("msg", JValue.str "Instance deleted")]
  else if status == 404 then
    if hasErrorCode body "ObjectNotFound" then
      Outcome.exitJson false [("msg", JValue.str "Instance not present")]
    else
      Outcome.failJson [("msg", JValue.str "Failed to delete instance"), ("response", JValue.obj body)]
  else
    Outcome.failJson [("msg", JValue.str "Failed to delete instance"), ("response", JValue.obj body)]

/-- Create classification of oxide_image.py lines 217-225. -/
def oxide_image_create_result (status : Nat) (body : List (String × JValue)) : Outcome :=
  if status == 201 then
    Outcome.exitJson true [("image", JValue.obj body), ("msg", JValue.str "Image created")]
  else if status == 400 then
    if hasErrorCode body "ObjectAlreadyExists" then
      Outcome.exitJson false [("msg", JValue.str "Image already present")]
    else
      Outcome.failJson [("msg", JValue.str "Failed to create image"), ("response", JValue.obj body)]
  else
    Outcome.failJson [("msg", JValue.str "Failed to create image"), ("response", JValue.obj body)]

/-- Delete classification of oxide_image.py lines 230-238. Both failure
branches there call `module.fail_json(msg=..., response=image)`, but no
variable named `image` is in scope anywhere in that `main`; evaluating the
argument raises a Python NameError before `fail_json` runs, so those
branches terminate with an uncaught exception, modelled as `nameError`. -/
def oxide_image_delete_result (status : Nat) (body : List (String × JValue)) : Outcome :=
  if status == 204 then
    Outcome.exitJson true [("msg", JValue.str "Image deleted")]
  else if status == 404 then
    if hasErrorCode body "ObjectNotFound" then
      Outcome.exitJson false [("msg", JValue.str "Image not present")]
    else
      Outcome.nameError
  else
    Outcome.nameError

/-- Create classification of oxide_snapshot.py lines 160-168. -/
def oxide_snapshot_create_result (status : Nat) (body : List (String × JValue)) : Outcome :=
  if status == 201 then
    Outcome.exitJson true [("snapshot", JValue.obj body), ("msg", JValue.str "Snapshot created")]
  else if status == 400 then
    if hasErrorCode body "ObjectAlreadyExists" then
      Outcome.exitJson false [("msg", JValue.str "Snapshot already present")]
    else
      Outcome.failJson [("msg", JValue.str "Failed to create snapshot"), ("response", JValue.obj body)]
  else
    Outcome.failJson [("msg", JValue.str "Failed to create snapshot"), ("response", JValue.obj body)]

/-- Delete classification of oxide_snapshot.py lines 173-181. -/
def oxide_snapshot_delete_result (status : Nat) (body : List (String × JValue)) : Outcome :=
  if status == 204 then
    Outcome.exitJson true [("msg", JValue.str "Snapshot deleted")]
  else if status == 404 then
    if hasErrorCode body "ObjectNotFound" then
      Outcome.exitJson false [("msg", JValue.str "Snapshot not present")]
    else
      Outcome.failJson [("msg", JValue.str "Failed to delete snapshot"), ("response", JValue.obj body)]
  else
    Outcome.failJson [("msg", JValue.str "Failed to delete snapshot"), ("response", JValue.obj body)]

/-- Create classification of oxide_ssh_key.py lines 148-156. -/
def oxide_ssh_key_create_result (status : Nat) (body : List (String × JValue)) : Outcome :=
  if status == 201 then
    Outcome.exitJson true [("ssh_key", JValue.obj body), ("msg", JValue.str "SSH key created")]
  else if status == 400 then
    if hasErrorCode body "ObjectAlreadyExists" then
      Outcome.exitJson false [("msg", JValue.str "SSH key already present")]
    else
      Outcome.failJson [("msg", JValue.str "Failed to create SSH key"), ("response", JValue.obj body)]
  else
    Outcome.failJson [("msg", JValue.str "Failed to create SSH key"), ("response", JValue.obj body)]

/-- Delete classification of oxide_ssh_key.py lines 161-169. -/
def oxide_ssh_key_delete_result (status : Nat) (body : List (String × JValue)) : Outcome :=
  if status == 204 then
    Outcome.exitJson true [("msg", JValue.str "SSH key deleted")]
  else if status == 404 then
    if hasErrorCode body "ObjectNotFound" then
      Outcome.exitJson false [("msg", JValue.str "SSH key not present")]
    else
      Outcome.failJson [("msg", JValue.str "Failed to delete SSH key"), ("response", JValue.obj body)]
  else
    Outcome.failJson [("msg", JValue.str "Failed to delete SSH key"), ("response", JValue.obj body)]

/-- Create classification of library/oxide_disk.py lines 276-281: a 201
yields changed=true with the body as `disk`; a 400 — with no inspection of
`error_code` at all — yields changed=false with the body as `disk`; every
other status fails. -/
def oxide_disk_create_result (status : Nat) (body : List (String × JValue)) : Outcome :=
  if status == 201 then
    Outcome.exitJson true [("disk", JValue.obj body)]
  else if status == 400 then
    Outcome.exitJson false [("disk", JValue.obj body)]
  else
    Outcome.failJson [("msg", JValue.str "Failed to create disk"), ("response", JValue.obj body)]

/-- Delete classification of library/oxide_disk.py lines 285-293. -/
def oxide_disk_delete_result (status : Nat) (body : List (String × JValue)) : Outcome :=
  if status == 204 then
    Outcome.exitJson true [("msg", JValue.str "Disk deleted")]
  else if status == 404 then
    if hasErrorCode body "ObjectNotFound" then
      Outcome.exitJson false [("msg", JValue.str "Disk not present")]
    else
      Outcome.failJson [("msg", JValue.str "Failed to delete disk"), ("response", JValue.obj body)]
  else
    Outcome.failJson [("msg", JValue.str "Failed to delete disk"), ("response", JValue.obj body)]

/- ------------------------------------------------------------------ -/
/- The instance reconciliation run (C3): which HTTP requests `main` of
   plugins/modules/oxide_instance.py issues for state=present, and how the
   response is classified. -/

/-- An HTTP request issued by a module, with its path and, for POST, the
JSON payload. -/
inductive Request where
  | get : String → Request
  | post : String → List (String × JValue) → Request
  | delete : String → Request

/-- Whether a request is a GET. -/
def isGet : Request → Bool
  | Request.get _ => true
  | _ => false

/-- The control plane's behavior towards the instance endpoints: the
(status, body) it would answer to a GET, a POST (create) and a DELETE for
the instance at hand. The code chooses which of these to consult. -/
structure InstanceApiEnv where
  getResp : Nat × List (String × JValue)
  createResp : Nat × List (String × JValue)
  deleteResp : Nat × List (String × JValue)

/-- The state=present run of `main` in plugins/modules/oxide_instance.py
(lines 285-315): after name validation it calls `create_instance` — one
POST, no preceding GET — and classifies the create response. Returns the
list of requests issued and the terminal outcome. -/
def oxide_instance_main_present (i : InstanceParams) (env : InstanceApiEnv) :
    List Request × Outcome :=
  if (validate_name i.name).fst then
    ([Request.post "/v1/instances" (create_instance_payload i)],
     oxide_instance_create_result env.createResp.fst env.createResp.snd)
  else
    ([], Outcome.failJson [("msg", JValue.str (validate_name i.name).snd)])

/-- The resource-client function `get_instance` of oxide_utils.py lines
63-65: a single GET for the named instance. It is defined in the source
but no module's `main` ever calls it. -/
def get_instance_request (name : String) : Request :=
  Request.get ("/v1/instances/" ++ name)

/- ------------------------------------------------------------------ -/
/- The specification's outcome tables (spec §4.5/§4.6), stated once and
   parametrized by resource key and messages, to compare the per-module
   copies against. -/

/-- The create table the specification states for every kind: 201 →
changed with the body attached and a created message, 400 with error_code
ObjectAlreadyExists → unchanged, any other response → failed carrying the
body. -/
def specCreateClassify (resKey okMsg alreadyMsg failMsg : String)
    (status : Nat) (body : List (String × JValue)) : Outcome :=
  if status == 201 then
    Outcome.exitJson true [(resKey, JValue.obj body), ("msg", JValue.str okMsg)]
  else if status == 400 then
    if hasErrorCode body "ObjectAlreadyExists" then
      Outcome.exitJson false [("msg", JValue.str alreadyMsg)]
    else
      Outcome.failJson [("msg", JValue.str failMsg), ("response", JValue.obj body)]
  else
    Outcome.failJson [("msg", JValue.str failMsg), ("response", JValue.obj body)]

/-- The delete table the specification states for every kind: 204 →
changed, 404 with error_code ObjectNotFound → unchanged, any other
response → failed carrying the body. -/
def specDeleteClassify (deletedMsg notPresentMsg failMsg : String)
    (status : Nat) (body : List (String × JValue)) : Outcome :=
  if status == 204 then
    Outcome.exitJson true [("msg", JValue.str deletedMsg)]
  else if status == 404 then
    if hasErrorCode body "ObjectNotFound" then
      Outcome.exitJson false [("msg", JValue.str notPresentMsg)]
    else
      Outcome.failJson [("msg", JValue.str failMsg), ("response", JValue.obj body)]
  else
    Outcome.failJson [("msg", JValue.str failMsg), ("response", JValue.obj body)]

/-- Gigabyte to byte conversion: the source expression `n * 1024 * 1024 *
1024` equals multiplication by 1024³. -/
theorem gb_bytes (n : Nat) : n * 1024 * 1024 * 1024 = n * 1073741824 := by
  ring

/-- Every create classifier except the disk module's implements the
specification's create table with its module-specific key and messages. -/
theorem create_classifiers_follow_spec_table (s : Nat) (b : List (String × JValue)) :
    oxide_project_create_result s b
      = specCreateClassify "project" "Project created" "Project already present"
          "Failed to create project" s b
  ∧ oxide_instance_create_result s b
      = specCreateClassify "instance" "Instance created" "Instance already present"
          "Failed to create instance" s b
  ∧ oxide_instance_lib_create_result s b
      = specCreateClassify "instance" "Instance created" "Instance already present"
          "Failed to create instance" s b
  ∧ oxide_image_create_result s b
      = specCreateClassify "image" "Image created" "Image already present"
          "Failed to create image" s b
  ∧ oxide_snapshot_create_result s b
      = specCreateClassify "snapshot" "Snapshot created" "Snapshot already present"
          "Failed to create snapshot" s b
  ∧ oxide_ssh_key_create_result s b
      = specCreateClassify "ssh_key" "SSH key created" "SSH key already present"
          "Failed to create SSH key" s b :=
  ⟨rfl, rfl, rfl, rfl, rfl, rfl⟩

/-- Every delete classifier except the image module's implements the
specification's delete table with its module-specific messages. -/
theorem delete_classifiers_follow_spec_table (s : Nat) (b : List (String × JValue)) :
    oxide_project_delete_result s b
      = specDeleteClassify "Project deleted" "Project not present"
          "Failed to delete project" s b
  ∧ oxide_instance_delete_result s b
      = specDeleteClassify "Instance deleted" "Instance not present"
          "Failed to delete instance" s b
  ∧ oxide_instance_lib_delete_result s b
      = specDeleteClassify "Instance deleted" "Instance not present"
          "Failed to delete instance" s b
  ∧ oxide_snapshot_delete_result s b
      = specDeleteClassify "Snapshot deleted" "Snapshot not present"
          "Failed to delete snapshot" s b
  ∧ oxide_ssh_key_delete_result s b
      = specDeleteClassify "SSH key deleted" "SSH key not present"
          "Failed to delete SSH key" s b
  ∧ oxide_disk_delete_result s b
      = specDeleteClassify "Disk deleted" "Disk not present"
          "Failed to delete disk" s b :=
  ⟨rfl, rfl, rfl, rfl, rfl, rfl⟩

/- ------------------------------------------------------------------ -/
/- Concrete inputs used to settle the claims. -/

/-- A 400/404 body whose error_code is not one of the recognized ones. -/
def errInvalidRequest : List (String × JValue) :=
  [("error_code", JValue.str "InvalidRequest")]

/-- A 404 body carrying a non-ObjectNotFound structured error. -/
def errConflict : List (String × JValue) :=
  [("error_code", JValue.str "Conflict")]

/-- The instance desired state of the module documentation's example. -/
def exInstanceParams : InstanceParams :=
  { name := "myinstance", description := "My instance", hostname := "hostname",
    memory := 4, ncpus := 1, start_on_create := true, disks := none,
    ssh_public_keys := [], user_data := "" }

/-- The body a GET for an existing `myinstance` would return. -/
def existingInstanceBody : List (String × JValue) :=
  [("id", JValue.str "instance-id"), ("name", JValue.str "myinstance")]

/-- A control plane on which `myinstance` already exists: a GET would
answer 200 with the body, a create answers 400 ObjectAlreadyExists. -/
def exEnvExisting : InstanceApiEnv :=
  { getResp := (200, existingInstanceBody),
    createResp := (400, [("error_code", JValue.str "ObjectAlreadyExists")]),
    deleteResp := (204, []) }

/-- The lowercase UUID used as a resource name in the modules' own
documentation examples (as a `project` value). -/
def uuidName : String := "3f8e4c7a-9a3d-4e2f-b1c7-839f6d34f7e2"

/- ------------------------------------------------------------------ -/
/- The claims. -/

/-- C1: the claimed create classification — 201 → changed=true with the
body, 400 with error_code ObjectAlreadyExists → changed=false, every
other response (including a 400 with a missing or different error_code) →
failed with the body — is violated by the disk module: library/oxide_disk.py
lines 278-279 treat every 400 as a successful changed=false outcome,
attaching the error body as the disk, without inspecting error_code; the
specification's table (followed, e.g., by the project module) fails
there. -/
theorem C1_disk_create_misclassifies_400 :
    oxide_disk_create_result 400 errInvalidRequest
      = Outcome.exitJson false [("disk", JValue.obj errInvalidRequest)]
  ∧ oxide_disk_create_result 400 []
      = Outcome.exitJson false [("disk", JValue.obj [])]
  ∧ specCreateClassify "disk" "Disk created" "Disk already present"
        "Failed to create disk" 400 errInvalidRequest
      = Outcome.failJson
          [("msg", JValue.str "Failed to create disk"),
           ("response", JValue.obj errInvalidRequest)]
  ∧ oxide_project_create_result 400 errInvalidRequest
      = Outcome.failJson
          [("msg", JValue.str "Failed to create project"),
           ("response", JValue.obj errInvalidRequest)] :=
  ⟨rfl, rfl, rfl, rfl⟩

/-- C2: the claimed delete classification — 204 → changed, 404 with
ObjectNotFound → unchanged, anything else → failed with the body, never
an uncaught exception — is violated by the image module: on a 404 whose
error_code is not ObjectNotFound, and on every other failing status,
oxide_image.py lines 236/238 evaluate the undefined variable `image` and
raise NameError before fail_json runs; the project module shows the
claimed behavior on the same input. -/
theorem C2_image_delete_uncaught_name_error :
    oxide_image_delete_result 404 errConflict = Outcome.nameError
  ∧ oxide_image_delete_result 404 [] = Outcome.nameError
  ∧ oxide_image_delete_result 500 [] = Outcome.nameError
  ∧ oxide_project_delete_result 404 errConflict
      = Outcome.failJson
          [("msg", JValue.str "Failed to delete project"),
           ("response", JValue.obj errConflict)] :=
  ⟨rfl, rfl, rfl, rfl⟩

/-- C3 counterexample: on a control plane where the instance already
exists (a GET would return 200 with its body), the state=present run of
plugins/modules/oxide_instance.py still issues exactly one POST create
and no GET at all, and its outcome is a changed=false message without the
existing resource body — refuting the claim that a GET is issued before
any create and that no create proceeds when the GET would return 200. -/
theorem C3_counterexample :
    (oxide_instance_main_present exInstanceParams exEnvExisting).fst
      = [Request.post "/v1/instances" (create_instance_payload exInstanceParams)]
  ∧ ((oxide_instance_main_present exInstanceParams exEnvExisting).fst.all
        (fun r => !(isGet r))) = true
  ∧ (oxide_instance_main_present exInstanceParams exEnvExisting).snd
      = Outcome.exitJson false [("msg", JValue.str "Instance already present")] :=
  ⟨rfl, rfl, rfl⟩

/-- C3 amended: instance reconciliation with state=present never issues a
GET: its trace contains no GET request, the whole run is unchanged when
the control plane's GET and DELETE behavior changes (only the create
response is consulted), and whenever the name validates the trace is
exactly one POST of the built payload. Idempotence comes solely from the
400/ObjectAlreadyExists create classification. -/
theorem C3_no_probe_before_create (i : InstanceParams) (env : InstanceApiEnv)
    (g d : Nat × List (String × JValue)) :
    (oxide_instance_main_present i env).fst.all (fun r => !(isGet r)) = true
  ∧ oxide_instance_main_present i env
      = oxide_instance_main_present i
          { getResp := g, createResp := env.createResp, deleteResp := d }
  ∧ ((validate_name i.name).fst = true →
      (oxide_instance_main_present i env).fst
        = [Request.post "/v1/instances" (create_instance_payload i)]) := by
  unfold oxide_instance_main_present
  by_cases h : (validate_name i.name).fst = true <;> simp [h, isGet]

/-- C3 witness: the amended theorem applied to the concrete run. -/
theorem C3_no_probe_witness :
    (oxide_instance_main_present exInstanceParams exEnvExisting).fst
      = [Request.post "/v1/instances" (create_instance_payload exInstanceParams)] :=
  (C3_no_probe_before_create exInstanceParams exEnvExisting
    (200, existingInstanceBody) (204, [])).2.2 rfl

/-- C4 counterexample: the name `a` followed by one newline is outside
the language of `^[a-z0-9][a-z0-9-]*$` (a newline is in neither character
class) and has length 2, yet validate_name accepts it: Python's `$`
anchor also matches just before a newline that ends the string, so
`re.match` succeeds and no check rejects the name — refuting the claim
that every name not matching the pattern fails. -/
theorem C4_counterexample :
    matchCore ("a\n".data) = false
  ∧ (1 ≤ "a\n".length ∧ "a\n".length ≤ 63)
  ∧ validate_name "a\n" = (true, "") :=
  ⟨rfl, by decide, rfl⟩

/-- `pyMatchName` rejects the empty character list. -/
theorem pyMatch_empty : pyMatchName [] = false := rfl

/-- C4 amended: validate_name succeeds exactly on names of length at most
63 accepted by Python's `re.match` on the pattern — the language of
`^[a-z0-9][a-z0-9-]*$` plus the same words with one trailing newline —
and every failure message identifies the violated rule: over-length names
get the maximum-length message, the empty name the minimum-length
message, and in-length names outside the pattern the pattern message. -/
theorem C4_name_validation (name : String) :
    ((validate_name name).fst = true ↔
      name.length ≤ 63 ∧ pyMatchName name.data = true)
  ∧ (pyMatchName name.data = true ↔
      (matchCore name.data = true ∨
        (name.data.getLast? = some '\n' ∧ matchCore name.data.dropLast = true)))
  ∧ (name.length > 63 → validate_name name = (false, msgTooLong))
  ∧ (name.length = 0 → validate_name name = (false, msgTooShort))
  ∧ (1 ≤ name.length → name.length ≤ 63 → pyMatchName name.data = false →
      validate_name name = (false, msgPattern)) := by
  have hlen : name.length = name.data.length := rfl
  have hpy0 : name.data.length = 0 → pyMatchName name.data = false := by
    intro h
    have : name.data = [] := List.eq_nil_of_length_eq_zero h
    rw [this]
    exact pyMatch_empty
  refine ⟨?_, ?_, ?_, ?_, ?_⟩
  · unfold validate_name
    split_ifs with h1 h2 h3
    · simp only [Bool.false_eq_true, false_iff]
      intro hc
      omega
    · simp only [Bool.false_eq_true, false_iff]
      intro hc
      have := hpy0 (by omega)
      rw [this] at hc
      exact absurd hc.2 (by simp)
    · simp only [Bool.false_eq_true, false_iff]
      intro hc
      simp only [Bool.not_eq_true'] at h3
      rw [h3] at hc
      exact absurd hc.2 (by simp)
    · simp only [Bool.not_eq_true'] at h3
      simp only [true_iff]
      exact ⟨by omega, by simpa using h3⟩
  · unfold pyMatchName
    cases hg : name.data.getLast? with
    | none => simp
    | some c =>
      simp only [Bool.or_eq_true, Bool.and_eq_true, beq_iff_eq, Option.some.injEq]
  · intro h
    unfold validate_name
    simp [h]
  · intro h
    unfold validate_name
    have h1 : ¬(name.length > 63) := by omega
    simp [h1, h]
  · intro h1 h2 h3
    unfold validate_name
    have hn : ¬(name.length > 63) := by omega
    have hm : ¬(name.length < 1) := by omega
    simp [hn, hm, h3]

/-- C4 witness: the amended characterization applied to three concrete
names, one per failure message. -/
theorem C4_witness :
    validate_name (String.mk (List.replicate 64 'a')) = (false, msgTooLong)
  ∧ validate_name "" = (false, msgTooShort)
  ∧ validate_name "UPPER" = (false, msgPattern) :=
  ⟨(C4_name_validation (String.mk (List.replicate 64 'a'))).2.2.1 (by decide),
   (C4_name_validation "").2.2.2.1 (by decide),
   (C4_name_validation "UPPER").2.2.2.2 (by decide) (by decide) (by decide)⟩

/-- C9: the documented rule that a name cannot be a UUID is not enforced:
the syntactically valid lowercase UUID used in the modules' own examples
passes both copies of validate_name (only length and pattern are ever
checked). -/
theorem C9_uuid_name_accepted :
    isUUIDShape uuidName = true
  ∧ validate_name uuidName = (true, "")
  ∧ validate_name_disk uuidName = (true, "") :=
  ⟨by decide, rfl, rfl⟩

/-- C10: validate_name accepts names ending with a hyphen: any name of
length at most 63 in the language of `^[a-z0-9][a-z0-9-]*$` whose last
character is a hyphen passes both copies of validate_name, although their
own docstring says names may not end with a hyphen. -/
theorem C10_trailing_hyphen_accepted (name : String)
    (h1 : name.length ≤ 63) (h2 : matchCore name.data = true)
    (h3 : name.data.getLast? = some '-') :
    (validate_name name).fst = true ∧ (validate_name_disk name).fst = true := by
  have hpy : pyMatchName name.data = true := by
    unfold pyMatchName
    rw [h2]
    simp
  have hne : name.data ≠ [] := by
    intro h
    rw [h] at h2
    simp [matchCore] at h2
  have hlen1 : 1 ≤ name.length := by
    have : name.data.length ≠ 0 := fun h => hne (List.eq_nil_of_length_eq_zero h)
    have hl : name.length = name.data.length := rfl
    omega
  constructor
  · unfold validate_name
    have hn : ¬(name.length > 63) := by omega
    have hm : ¬(name.length < 1) := by omega
    simp [hn, hm, hpy]
  · unfold validate_name_disk
    have hn : ¬(name.length > 63) := by omega
    simp [hn, hpy]

/-- C10 witness: the concrete name `a-` — in the language, ending in a
hyphen — is accepted by both validators. -/
theorem C10_witness :
    ("a-".length ≤ 63 ∧ matchCore ("a-".data) = true
      ∧ ("a-".data).getLast? = some '-')
  ∧ ((validate_name "a-").fst = true ∧ (validate_name_disk "a-").fst = true) :=
  ⟨by decide, C10_trailing_hyphen_accepted "a-" (by decide) (by decide) (by decide)⟩

/- ------------------------------------------------------------------ -/
/- Payload claims C5-C8. -/

/-- Field access inside a JSON object value. -/
def jgetObj (v : JValue) (k : String) : Option JValue :=
  match v with
  | JValue.obj o => jget o k
  | _ => none

/-- `jget` distributes over concatenation: the first segment wins. -/
theorem jget_append (l1 l2 : List (String × JValue)) (k : String) :
    jget (l1 ++ l2) k = (jget l1 k <|> jget l2 k) := by
  induction l1 with
  | nil => simp [jget]
  | cons a t ih =>
    cases a with
    | mk k2 v =>
      simp only [List.cons_append, jget]
      split
      · simp
      · exact ih

/-- C5: gigabyte-to-byte conversion. Every disk create payload carries
`size * 1073741824` and every instance create payload (both builders)
carries `memory * 1073741824`; in particular size 1 becomes 1073741824
and memory 2 becomes 2147483648. -/
theorem C5_gb_to_byte_conversion :
    (∀ d p, create_disk_payload d = some p →
      jget p "size" = some (JValue.nat (d.size * 1073741824)))
  ∧ (∀ i, jget (create_instance_payload i) "memory"
      = some (JValue.nat (i.memory * 1073741824)))
  ∧ (∀ u, jget (utils_create_instance_payload u) "memory"
      = some (JValue.nat (u.memory * 1073741824)))
  ∧ (1 : Nat) * 1073741824 = 1073741824
  ∧ (2 : Nat) * 1073741824 = 2147483648 := by
  refine ⟨?_, ?_, ?_, by norm_num, by norm_num⟩
  · intro d p h
    unfold create_disk_payload at h
    cases hb : build_disk_source d.disk_source with
    | none => rw [hb] at h; simp at h
    | some ds =>
      rw [hb] at h
      simp only [Option.map_some', Option.some.injEq] at h
      rw [← h]
      simp [jget, gb_bytes]
  · intro i
    simp [create_instance_payload, jget_append, jget, gb_bytes]
  · intro u
    simp [utils_create_instance_payload, jget_append, jget, gb_bytes]

/-- The desired disk of the module documentation's blank-disk example. -/
def exDiskParams : DiskParams :=
  { name := "blanketyblank", description := "A new blank disk", size := 50,
    disk_source := [("type", JValue.str "blank"), ("block_size", JValue.nat 512)] }

/-- C5 witness: the conversion theorem applied to the 50 GB example disk
(50 * 1024³ = 53687091200 bytes on the wire). -/
theorem C5_witness :
    jget [("description", JValue.str "A new blank disk"),
          ("disk_source", JValue.obj
            [("type", JValue.str "blank"), ("block_size", JValue.nat 512)]),
          ("name", JValue.str "blanketyblank"),
          ("size", JValue.nat 53687091200)] "size"
      = some (JValue.nat (50 * 1073741824)) :=
  C5_gb_to_byte_conversion.1 exDiskParams
    [("description", JValue.str "A new blank disk"),
     ("disk_source", JValue.obj
       [("type", JValue.str "blank"), ("block_size", JValue.nat 512)]),
     ("name", JValue.str "blanketyblank"),
     ("size", JValue.nat 53687091200)] rfl

/-- A disk_source mapping tagged `blank` that also carries the inactive
snapshot variant's `snapshot_id` field. -/
def mixedDiskSource : List (String × JValue) :=
  [("type", JValue.str "blank"), ("block_size", JValue.nat 512),
   ("snapshot_id", JValue.str "snap-1")]

/-- A `disks.create` entry of the instance module whose disk_source is
the mixed mapping. -/
def exMixedEntry : CreateEntry :=
  { description := "disk description", disk_source := mixedDiskSource,
    name := "mydisk", size := 10 }

/-- An instance desired state containing that create entry. -/
def exMixedInstance : InstanceParams :=
  { name := "myinstance", description := "My instance", hostname := "hostname",
    memory := 4, ncpus := 1, start_on_create := true,
    disks := some { create := some [exMixedEntry], attach := none },
    ssh_public_keys := [], user_data := "" }

/-- C6 counterexample: on a disk_source tagged `blank` that also carries a
`snapshot_id`, the top-level disk builder emits exactly {type, block_size}
— but the instance payload copies the mapping verbatim into the create
entry's nested disk_source, which therefore still carries the inactive
variant's `snapshot_id` field, refuting the claim for the nested case. -/
theorem C6_counterexample :
    jget mixedDiskSource "type" = some (JValue.str "blank")
  ∧ jget mixedDiskSource "snapshot_id" = some (JValue.str "snap-1")
  ∧ build_disk_source mixedDiskSource
      = some [("type", JValue.str "blank"), ("block_size", JValue.nat 512)]
  ∧ jget (create_instance_payload exMixedInstance) "disks"
      = some (JValue.list
          [JValue.obj
            [("description", JValue.str "disk description"),
             ("disk_source", JValue.obj mixedDiskSource),
             ("name", JValue.str "mydisk"),
             ("size", JValue.nat 10737418240),
             ("type", JValue.str "create")]]) :=
  ⟨rfl, rfl, rfl, rfl⟩

/-- C6 amended: the top-level disk create payload's disk_source contains
exactly the type tag plus the active variant's fields, for each of the
four variants; the nested disk_source of create-type entries in instance
payloads is the caller's mapping copied verbatim (so it is exact only
when the input is). -/
theorem C6_disk_source_variants :
    (∀ ds b, jget ds "type" = some (JValue.str "blank") →
      jget ds "block_size" = some b →
      build_disk_source ds = some [("type", JValue.str "blank"), ("block_size", b)])
  ∧ (∀ ds b, jget ds "type" = some (JValue.str "importing_blocks") →
      jget ds "block_size" = some b →
      build_disk_source ds
        = some [("type", JValue.str "importing_blocks"), ("block_size", b)])
  ∧ (∀ ds s, jget ds "type" = some (JValue.str "snapshot") →
      jget ds "snapshot_id" = some s →
      build_disk_source ds = some [("type", JValue.str "snapshot"), ("snapshot_id", s)])
  ∧ (∀ ds s, jget ds "type" = some (JValue.str "image") →
      jget ds "image_id" = some s →
      build_disk_source ds = some [("type", JValue.str "image"), ("image_id", s)])
  ∧ (∀ e, jgetObj (instance_disk_create_entry e) "disk_source"
      = some (JValue.obj e.disk_source)) := by
  refine ⟨?_, ?_, ?_, ?_, ?_⟩
  · intro ds b h1 h2
    unfold build_disk_source
    rw [h1]
    simp [h2]
  · intro ds b h1 h2
    unfold build_disk_source
    rw [h1]
    simp [h2]
  · intro ds s h1 h2
    unfold build_disk_source
    rw [h1]
    simp [h2]
  · intro ds s h1 h2
    unfold build_disk_source
    rw [h1]
    simp [h2]
  · intro e
    simp [instance_disk_create_entry, jgetObj, jget]

/-- C6 witness: the variant theorem applied to one well-formed mapping of
each of the four variants. -/
theorem C6_witness :
    build_disk_source [("type", JValue.str "blank"), ("block_size", JValue.nat 512)]
      = some [("type", JValue.str "blank"), ("block_size", JValue.nat 512)]
  ∧ build_disk_source
        [("type", JValue.str "importing_blocks"), ("block_size", JValue.nat 4096)]
      = some [("type", JValue.str "importing_blocks"), ("block_size", JValue.nat 4096)]
  ∧ build_disk_source [("type", JValue.str "snapshot"), ("snapshot_id", JValue.str "snap-2")]
      = some [("type", JValue.str "snapshot"), ("snapshot_id", JValue.str "snap-2")]
  ∧ build_disk_source [("type", JValue.str "image"), ("image_id", JValue.str "img-1")]
      = some [("type", JValue.str "image"), ("image_id", JValue.str "img-1")] :=
  ⟨C6_disk_source_variants.1 _ _ rfl rfl,
   C6_disk_source_variants.2.1 _ _ rfl rfl,
   C6_disk_source_variants.2.2.1 _ _ rfl rfl,
   C6_disk_source_variants.2.2.2.1 _ _ rfl rfl⟩

/-- An instance desired state for the oxide_utils builder: one create
disk of size 1 GB and one attach disk. -/
def exUtilsParams : UtilsInstanceParams :=
  { name := "myinstance", description := "My instance", hostname := "hostname",
    memory := 4, ncpus := 1, start_on_create := true,
    disks := [UDisk.create "disk description"
                [("type", JValue.str "blank"), ("block_size", JValue.nat 512)]
                "mydisk" 1,
              UDisk.attach "somedisk"],
    ssh_public_keys := [], user_data := "" }

/-- C7 counterexample: the oxide_utils instance payload builder emits the
create entry with size 1 — the input passed through, not 1 * 1073741824
— and an attach entry keyed by the disk name with no id field, refuting
the claim for this builder. -/
theorem C7_counterexample :
    jget (utils_create_instance_payload exUtilsParams) "disks"
      = some (JValue.list
          [JValue.obj
            [("description", JValue.str "disk description"),
             ("disk_source", JValue.obj
               [("type", JValue.str "blank"), ("block_size", JValue.nat 512)]),
             ("name", JValue.str "mydisk"),
             ("size", JValue.nat 1),
             ("type", JValue.str "create")],
           JValue.obj
            [("name", JValue.str "somedisk"),
             ("type", JValue.str "attach")]])
  ∧ (1 : Nat) ≠ 1 * 1073741824
  ∧ jgetObj (utils_disk_entry (UDisk.attach "somedisk")) "id" = none :=
  ⟨rfl, by decide, rfl⟩

/-- C7 amended: in plugins/modules/oxide_instance.py every create entry
carries the nested disk_source and a size converted GB to bytes, and
every attach entry is exactly {id, type=attach}; the oxide_utils builder
instead passes the size through unconverted and keys attach entries by
the disk name with no id. -/
theorem C7_disk_entries :
    (∀ e, jgetObj (instance_disk_create_entry e) "size"
      = some (JValue.nat (e.size * 1073741824)))
  ∧ (∀ e, jgetObj (instance_disk_create_entry e) "disk_source"
      = some (JValue.obj e.disk_source))
  ∧ (∀ id, instance_disk_attach_entry id
      = JValue.obj [("id", JValue.str id), ("type", JValue.str "attach")])
  ∧ (∀ d ds n s, jgetObj (utils_disk_entry (UDisk.create d ds n s)) "size"
      = some (JValue.nat s))
  ∧ (∀ n, jgetObj (utils_disk_entry (UDisk.attach n)) "id" = none
      ∧ jgetObj (utils_disk_entry (UDisk.attach n)) "name" = some (JValue.str n)) := by
  refine ⟨?_, ?_, ?_, ?_, ?_⟩
  · intro e
    simp [instance_disk_create_entry, jgetObj, jget, gb_bytes]
  · intro e
    simp [instance_disk_create_entry, jgetObj, jget]
  · intro id
    rfl
  · intro d ds n s
    simp [utils_disk_entry, jgetObj, jget]
  · intro n
    exact ⟨rfl, rfl⟩

/-- An instance desired state whose disks mapping is present with empty
create and attach lists. -/
def exEmptyDisksParams : InstanceParams :=
  { name := "myinstance", description := "My instance", hostname := "hostname",
    memory := 4, ncpus := 1, start_on_create := true,
    disks := some { create := some [], attach := some [] },
    ssh_public_keys := [], user_data := "" }

/-- C8 counterexample: with a disks mapping present whose create and
attach lists are both empty, the plug-in instance payload still carries
a disks key holding an empty array — the claim requires the key to be
absent in exactly this case. -/
theorem C8_counterexample :
    jget (create_instance_payload exEmptyDisksParams) "disks"
      = some (JValue.list [])
  ∧ jget (create_instance_payload exEmptyDisksParams) "ssh_public_keys" = none
  ∧ jget (create_instance_payload exEmptyDisksParams) "user_data" = none :=
  ⟨rfl, rfl, rfl⟩

/-- C8 amended: empty ssh_public_keys and user_data are omitted by both
instance payload builders, and the oxide_utils builder omits disks when
its built list is empty; the plug-in builder omits disks only when the
disks mapping itself is absent, and emits the key — possibly with an
empty array — whenever the mapping is present. -/
theorem C8_optional_keys :
    (∀ i, i.disks = none → jget (create_instance_payload i) "disks" = none)
  ∧ (∀ i d, i.disks = some d →
      jget (create_instance_payload i) "disks"
        = some (JValue.list (instance_disks_list d)))
  ∧ (∀ i, jget (create_instance_payload i) "ssh_public_keys"
      = if i.ssh_public_keys.isEmpty then none
        else some (JValue.list (i.ssh_public_keys.map JValue.str)))
  ∧ (∀ i, jget (create_instance_payload i) "user_data"
      = if i.user_data == "" then none else some (JValue.str i.user_data))
  ∧ (∀ u, u.disks = [] → jget (utils_create_instance_payload u) "disks" = none)
  ∧ (∀ u, jget (utils_create_instance_payload u) "ssh_public_keys"
      = if u.ssh_public_keys.isEmpty then none
        else some (JValue.list (u.ssh_public_keys.map JValue.str)))
  ∧ (∀ u, jget (utils_create_instance_payload u) "user_data"
      = if u.user_data == "" then none else some (JValue.str u.user_data)) := by
  refine ⟨?_, ?_, ?_, ?_, ?_, ?_, ?_⟩
  · intro i h
    simp [create_instance_payload, h, jget_append, jget]
    split <;> split <;> simp [jget]
  · intro i d h
    simp [create_instance_payload, h, jget_append, jget]
  · intro i
    cases hd : i.disks <;>
      simp [create_instance_payload, hd, jget_append, jget] <;>
      split_ifs <;> simp [jget]
  · intro i
    cases hd : i.disks <;>
      simp [create_instance_payload, hd, jget_append, jget] <;>
      split_ifs <;> simp [jget]
  · intro u h
    simp [utils_create_instance_payload, h, jget_append, jget]
    split <;> split <;> simp [jget]
  · intro u
    simp [utils_create_instance_payload, jget_append, jget]
    split_ifs <;> simp [jget]
  · intro u
    simp [utils_create_instance_payload, jget_append, jget]
    split_ifs <;> simp [jget]

/-- The oxide_utils instance desired state with no disks at all. -/
def exUtilsNoDisks : UtilsInstanceParams :=
  { exUtilsParams with disks := [] }

/-- C8 witness: the optional-key theorem applied to concrete desired
states — disks absent, disks present-but-empty, and the utils builder
with no disks. -/
theorem C8_witness :
    jget (create_instance_payload exInstanceParams) "disks" = none
  ∧ jget (create_instance_payload exEmptyDisksParams) "disks"
      = some (JValue.list (instance_disks_list { create := some [], attach := some [] }))
  ∧ jget (utils_create_instance_payload exUtilsNoDisks) "disks" = none :=
  ⟨C8_optional_keys.1 exInstanceParams rfl,
   C8_optional_keys.2.1 exEmptyDisksParams { create := some [], attach := some [] } rfl,
   C8_optional_keys.2.2.2.2.1 exUtilsNoDisks rfl⟩

end Oxide
